import Mathlib

/-!
Shallow embedding of `assignment10/geoapp/views.py`: the `home` request
handler (continent form → REST-Countries lookup → random sampling →
per-capital weather enrichment → MongoDB history insert → render) and the
`history_view` handler (latest-20 history read).

Modelling conventions:
* JSON numbers (populations, coordinates, temperatures) are represented by
  `Int`; the code never computes with them, it only copies them and tests
  their presence, so the carrier type is irrelevant.
* Python dictionary access `d.get(k, default)` on typed JSON is `Option`
  plus `getD`; Python truthiness of an optional list (`a or b`) is made
  explicit in `pyOrNums`.
* The outcome of one request is a pure value: the rendered page plus the
  list of history records actually persisted by the request.  An uncaught
  Python exception is the `Outcome.crash` value / `Except.error ()`.
* The two outbound HTTP services, the random sample drawn by
  `random.sample`, the wall clock and the store availability are inputs,
  collected in `Env`; the handler itself is deterministic in them.
-/

namespace GeoApp

/-- The `name` object of a REST-Countries record; the code reads
`c.get("name", {}).get("common", "Unknown")`. -/
structure NameObj where
  common : Option String
deriving DecidableEq, Repr

/-- The `capitalInfo` object of a REST-Countries record; the code reads
`c.get("capitalInfo", {}).get("latlng")`. -/
structure CapitalInfo where
  latlng : Option (List Int)
deriving DecidableEq, Repr

/-- One country record as consumed from the REST-Countries response array.
Each field models the corresponding JSON key, absent keys (or JSON null)
being `none`. -/
structure CountryJson where
  name : Option NameObj
  capital : Option (List String)
  population : Option Int
  capitalInfo : Option CapitalInfo
  latlng : Option (List Int)
deriving DecidableEq, Repr

/-- The `main` object of an OpenWeatherMap response body. -/
structure MainObj where
  temp : Option Int
deriving DecidableEq, Repr

/-- One entry of the `weather` array of an OpenWeatherMap response body. -/
structure WeatherEntry where
  description : Option String
deriving DecidableEq, Repr

/-- An OpenWeatherMap response body as consumed by the code:
`w_json.get("main", {}).get("temp")` and
`w_json.get("weather", [{}])[0].get("description")`. -/
structure WeatherJson where
  main : Option MainObj
  weather : Option (List WeatherEntry)
deriving DecidableEq, Repr

/-- Result of one outbound weather HTTP call: either a
`requests.RequestException` (network error / timeout), or a response with a
status code and a JSON body. -/
inductive WeatherResp where
  | transportError
  | status (code : Nat) (body : WeatherJson)
deriving DecidableEq, Repr

/-- The `weather_info` dictionary built at line 89 of `views.py`. -/
structure WeatherInfo where
  temp : Option Int
  description : Option String
deriving DecidableEq, Repr

/-- The `population` field of a result item: the integer copied from the
country record, or the string sentinel `"N/A"` the code substitutes when
the key is absent. -/
inductive PopField where
  | value (n : Int)
  | na
deriving DecidableEq, Repr

/-- One element of the `results` list built in the sampling loop of
`home` (lines 99-107 of `views.py`). -/
structure ResultItem where
  country : String
  capital : String
  population : PopField
  latlng : Option (List Int)
  weather : Option WeatherInfo
deriving DecidableEq, Repr

/-- One document of the `search_history` Mongo collection, as inserted at
lines 112-118 of `views.py`.  The timestamp is an abstract instant
(`datetime.utcnow()` is an input of the request). -/
structure HistoryRecord where
  continent : String
  searched_at : Nat
  results : List ResultItem
deriving DecidableEq, Repr

/-- The rendered page of one request: the form page (with an optional
error message in the context), the results page, or an uncaught Python
exception escaping the handler. -/
inductive Outcome where
  | formPage (err : Option String)
  | resultsPage (continent : String) (results : List ResultItem)
  | crash
deriving DecidableEq, Repr

/-- The external world of one request: the result of the REST-Countries
call for the submitted region (`Except.error ()` models a
`requests.RequestException`, raised directly or by `raise_for_status`),
the OpenWeatherMap credential (`os.getenv`), the weather service as a
function of the queried capital, the index sequence drawn by
`random.sample`, the current instant, and whether the Mongo insert
succeeds. -/
structure Env where
  fetchCountries : Except Unit (List CountryJson)
  apiKey : Option String
  weatherApi : String → WeatherResp
  sampleIdx : List Nat
  now : Nat
  insertOk : Bool

/-- Python truthiness of `OPENWEATHER_API_KEY`: the variable is truthy iff
`os.getenv` returned a non-empty string. -/
def keyConfigured (env : Env) : Bool :=
  match env.apiKey with
  | none => false
  | some s => s != ""

/-- One incoming request.  `ContinentForm` itself lives in
`geoapp/forms.py`, which is not part of the sources; per the spec it
validates the selection against a fixed closed set of continents, so the
validation verdict and the cleaned continent value are abstracted as
request attributes. -/
structure Request where
  isPost : Bool
  formValid : Bool
  continent : String

/-- Python `a or b` where `a` is an optional list of numbers: `a` wins iff
it is present and non-empty (a present empty list is falsy). -/
def pyOrNums (a b : Option (List Int)) : Option (List Int) :=
  match a with
  | some l => if l.isEmpty then b else some l
  | none => b

/-- `c.get("name", {}).get("common", "Unknown")` (line 67). -/
def nameOf (c : CountryJson) : String :=
  ((c.name.getD ⟨none⟩).common).getD ("Unknown")

/-- `c.get("capital") or []` (line 68): an absent/null or empty capital
array both yield the empty list. -/
def capitalList (c : CountryJson) : List String :=
  c.capital.getD []

/-- `capital_list[0] if capital_list else "N/A"` (line 69). -/
def capitalOf (c : CountryJson) : String :=
  match capitalList c with
  | [] => "N/A"
  | x :: _ => x

/-- `c.get("population", "N/A")` (line 70). -/
def popOf (c : CountryJson) : PopField :=
  match c.population with
  | some n => .value n
  | none => .na

/-- `c.get("capitalInfo", {}).get("latlng") or c.get("latlng")`
(line 71). -/
def latlngOf (c : CountryJson) : Option (List Int) :=
  pyOrNums ((c.capitalInfo.getD ⟨none⟩).latlng) c.latlng

/-- `w_json.get("main", {}).get("temp")` (line 90). -/
def mainTemp (body : WeatherJson) : Option Int :=
  (body.main.getD ⟨none⟩).temp

/-- The weather call and parse for one capital (lines 77-97).  A
`RequestException` is caught and leaves `weather_info = None`; so does any
status other than 200.  On status 200 the body is parsed:
`w_json.get("weather", [{}])[0]` indexes the default single-element list
when the key is absent, but raises an uncaught `IndexError` when the key
is present holding an empty list — that is the `Except.error ()` case. -/
def fetchWeatherInfo (env : Env) (capital : String) : Except Unit (Option WeatherInfo) :=
  match env.weatherApi capital with
  | .transportError => .ok none
  | .status code body =>
    if code = 200 then
      match body.weather with
      | none => .ok (some ⟨mainTemp body, none⟩)
      | some [] => .error ()
      | some (w :: _) => .ok (some ⟨mainTemp body, w.description⟩)
    else .ok none

/-- The result item for one sampled country with no weather attached. -/
def plainItem (c : CountryJson) : ResultItem :=
  ⟨nameOf c, capitalOf c, popOf c, latlngOf c, none⟩

/-- One iteration of the sampling loop (lines 66-107): derive the display
fields and, only when the capital is not the `"N/A"` sentinel and the
credential is configured, attempt the weather call. -/
def buildItem (env : Env) (c : CountryJson) : Except Unit ResultItem :=
  if capitalOf c != "N/A" && keyConfigured env then
    match fetchWeatherInfo env (capitalOf c) with
    | .error e => .error e
    | .ok w => .ok { plainItem c with weather := w }
  else
    .ok (plainItem c)

/-- The whole sampling loop: items are appended in sampling order; an
uncaught exception in one iteration aborts the request. -/
def buildItems (env : Env) : List CountryJson → Except Unit (List ResultItem)
  | [] => .ok []
  | c :: cs =>
    match buildItem env c with
    | .error e => .error e
    | .ok r =>
      match buildItems env cs with
      | .error e => .error e
      | .ok rs => .ok (r :: rs)

/-- The elements of `countries_data` picked out by the index sequence the
random source produced, in that order (`random.sample(countries_data,
min(5, len(countries_data)))`, line 63). -/
def sampleList (idx : List Nat) (l : List CountryJson) : List CountryJson :=
  idx.filterMap (fun i => l[i]?)

/-- Contract of `random.sample(population, k)` on a population of size
`n`: it returns `k` positions, pairwise distinct and in range. -/
def validSample (idx : List Nat) (n k : Nat) : Prop :=
  idx.length = k ∧ idx.Nodup ∧ ∀ i ∈ idx, i < n

instance (idx : List Nat) (n k : Nat) : Decidable (validSample idx n k) := by
  unfold validSample; infer_instance

/-- The `home` view (lines 25-133 of `views.py`).  Returns the rendered
outcome together with the list of history documents the request actually
persisted. -/
def home (env : Env) (req : Request) : Outcome × List HistoryRecord :=
  if req.isPost && req.formValid then
    match env.fetchCountries with
    | .error _ => (.formPage (some ("Failed to fetch countries data.")), [])
    | .ok countriesData =>
      if countriesData.isEmpty then
        (.formPage (some ("No countries found for this continent.")), [])
      else
        match buildItems env (sampleList env.sampleIdx countriesData) with
        | .error _ => (.crash, [])
        | .ok results =>
          (.resultsPage req.continent results,
            if env.insertOk then [⟨req.continent, env.now, results⟩] else [])
  else
    (.formPage none, [])

/-- The history store as seen by `history_view`: reachable with some list
of documents, or raising on access. -/
inductive StoreState where
  | unavailable
  | available (records : List HistoryRecord)

/-- Insert one record into a list kept descending by `searched_at`. -/
def insertDesc (r : HistoryRecord) : List HistoryRecord → List HistoryRecord
  | [] => [r]
  | x :: xs =>
    if x.searched_at ≤ r.searched_at then r :: x :: xs
    else x :: insertDesc r xs

/-- Sorting descending by `searched_at`, modelling Mongo's
`sort("searched_at", -1)` (insertion sort; the claims only depend on the
output being an ordered permutation). -/
def sortDesc : List HistoryRecord → List HistoryRecord
  | [] => []
  | x :: xs => insertDesc x (sortDesc xs)

/-- The `history_view` view (lines 136-153):
`find().sort("searched_at", -1).limit(20)`, degrading to the empty list
when the store raises. -/
def history_view (s : StoreState) : List HistoryRecord :=
  match s with
  | .unavailable => []
  | .available rs => (sortDesc rs).take 20

/-- Newest first: each record's timestamp is at least every later one's. -/
def newestFirst (l : List HistoryRecord) : Prop :=
  l.Pairwise (fun a b => b.searched_at ≤ a.searched_at)

/-! ### Concrete fixtures used by the witness theorems -/

/-- A weather service on which every call raises a transport error. -/
def noWeather : String → WeatherResp := fun _ => .transportError

/-- A country record with every field present. -/
def cFrance : CountryJson :=
  { name := some ⟨some ("France")⟩
    capital := some ["Paris"]
    population := some 68000000
    capitalInfo := some ⟨some [48, 2]⟩
    latlng := some [46, 2] }

/-- A country record with no capital and most fields absent. -/
def cNoCapital : CountryJson :=
  { name := some ⟨some ("Macau")⟩
    capital := none
    population := none
    capitalInfo := some ⟨none⟩
    latlng := none }

/-- A valid POST request selecting Europe. -/
def reqPost : Request :=
  { isPost := true, formValid := true, continent := "Europe" }

/-- A baseline environment: the country call succeeds with two records,
no weather credential, working store. -/
def envBase : Env :=
  { fetchCountries := .ok [cFrance, cNoCapital]
    apiKey := none
    weatherApi := noWeather
    sampleIdx := [1, 0]
    now := 100
    insertOk := true }

/-- An environment whose country call fails. -/
def envFetchFail : Env :=
  { envBase with fetchCountries := .error () }

/-- An environment whose country call returns an empty list. -/
def envEmpty : Env :=
  { envBase with fetchCountries := .ok [] }

/-- An environment with a configured credential whose weather call always
fails with a transport error. -/
def envWFail : Env :=
  { envBase with
      fetchCountries := .ok [cFrance]
      apiKey := some ("k")
      sampleIdx := [0] }

/-- An environment with a configured credential whose weather call
returns HTTP 200 with the body `{"weather": []}` — present key, empty
array, no `main`. -/
def envWEmptyList : Env :=
  { envBase with
      fetchCountries := .ok [cFrance]
      apiKey := some ("k")
      sampleIdx := [0]
      weatherApi := fun _ => .status 200 ⟨none, some []⟩ }

/-- An environment with a configured credential whose weather call
returns HTTP 200 with the body `{}` — no `main`, no `weather` key. -/
def envWBare : Env :=
  { envBase with
      fetchCountries := .ok [cFrance]
      apiKey := some ("k")
      sampleIdx := [0]
      weatherApi := fun _ => .status 200 ⟨none, none⟩ }

/-- A history record with an early timestamp. -/
def recA : HistoryRecord := ⟨"Asia", 5, []⟩

/-- A history record with a later timestamp. -/
def recB : HistoryRecord := ⟨"Europe", 9, []⟩

/-! ### Supporting lemmas -/

/-- Sampling at an in-range index prepends that element. -/
theorem sampleList_cons_of_lt (i : Nat) (is : List Nat) (l : List CountryJson)
    (hi : i < l.length) :
    sampleList (i :: is) l = l[i] :: sampleList is l := by
  simp [sampleList, List.filterMap_cons, List.getElem?_eq_getElem hi]

/-- With every index in range, sampling yields one element per index. -/
theorem sampleList_length_eq (idx : List Nat) (l : List CountryJson)
    (hlt : ∀ i ∈ idx, i < l.length) :
    (sampleList idx l).length = idx.length := by
  induction idx with
  | nil => rfl
  | cons i is ih =>
    have hi : i < l.length := hlt i (List.mem_cons_self i is)
    rw [sampleList_cons_of_lt i is l hi, List.length_cons, List.length_cons,
      ih fun j hj => hlt j (List.mem_cons_of_mem i hj)]

/-- Every sampled element comes from the population. -/
theorem sampleList_subset (idx : List Nat) (l : List CountryJson) :
    ∀ x ∈ sampleList idx l, x ∈ l := by
  intro x hx
  obtain ⟨i, _, hsome⟩ := List.mem_filterMap.mp hx
  exact List.getElem?_mem hsome

/-- Distinct in-range indices into a duplicate-free population sample
pairwise-distinct elements. -/
theorem sampleList_nodup (idx : List Nat) (l : List CountryJson)
    (hn : idx.Nodup) (hlt : ∀ i ∈ idx, i < l.length) (hl : l.Nodup) :
    (sampleList idx l).Nodup := by
  induction idx with
  | nil => exact List.nodup_nil
  | cons i is ih =>
    have hi : i < l.length := hlt i (List.mem_cons_self i is)
    obtain ⟨hni, hnis⟩ := List.nodup_cons.mp hn
    rw [sampleList_cons_of_lt i is l hi]
    refine List.nodup_cons.mpr
      ⟨?_, ih hnis fun j hj => hlt j (List.mem_cons_of_mem i hj)⟩
    intro hmem
    obtain ⟨j, hj, hsome⟩ := List.mem_filterMap.mp hmem
    have hij : i = j := by
      refine List.getElem?_inj hi hl ?_
      rw [List.getElem?_eq_getElem hi, hsome]
    exact hni (hij ▸ hj)

/-- A completed sampling loop yields one result item per country. -/
theorem buildItems_length (env : Env) :
    ∀ cs rs, buildItems env cs = .ok rs → rs.length = cs.length := by
  intro cs
  induction cs with
  | nil =>
    intro rs h
    simp only [buildItems] at h
    injection h with h2
    subst h2
    rfl
  | cons c cs ih =>
    intro rs h
    simp only [buildItems] at h
    rcases hb : buildItem env c with e | r <;> rw [hb] at h
    · exact absurd h (by simp)
    · rcases hbs : buildItems env cs with e | rs' <;> rw [hbs] at h
      · exact absurd h (by simp)
      · injection h with h2
        subst h2
        rw [List.length_cons, List.length_cons, ih rs' hbs]

/-- Every item a completed sampling loop yields is built from one of the
countries given to it. -/
theorem buildItems_mem (env : Env) :
    ∀ cs rs, buildItems env cs = .ok rs →
      ∀ r ∈ rs, ∃ c ∈ cs, buildItem env c = .ok r := by
  intro cs
  induction cs with
  | nil =>
    intro rs h r hr
    simp only [buildItems] at h
    injection h with h2
    subst h2
    cases hr
  | cons c cs ih =>
    intro rs h r hr
    simp only [buildItems] at h
    rcases hb : buildItem env c with e | r' <;> rw [hb] at h
    · exact absurd h (by simp)
    · rcases hbs : buildItems env cs with e | rs' <;> rw [hbs] at h
      · exact absurd h (by simp)
      · injection h with h2
        subst h2
        cases hr with
        | head => exact ⟨c, List.mem_cons_self c cs, hb⟩
        | tail _ hr' =>
          obtain ⟨c', hc', hc'b⟩ := ih rs' hbs r hr'
          exact ⟨c', List.mem_cons_of_mem c hc', hc'b⟩

/-- Inserting keeps exactly the old elements plus the new one. -/
theorem mem_insertDesc (r x : HistoryRecord) :
    ∀ xs, x ∈ insertDesc r xs ↔ x = r ∨ x ∈ xs := by
  intro xs
  induction xs with
  | nil => simp [insertDesc]
  | cons y ys ih =>
    rw [insertDesc]
    split
    · simp [List.mem_cons]
    · simp only [List.mem_cons, ih]
      tauto

/-- Inserting into a list sorted newest-first keeps it sorted. -/
theorem newestFirst_insertDesc (r : HistoryRecord) :
    ∀ xs, newestFirst xs → newestFirst (insertDesc r xs) := by
  intro xs
  induction xs with
  | nil =>
    intro _
    simp [insertDesc, newestFirst]
  | cons y ys ih =>
    intro h
    obtain ⟨hy, hys⟩ := List.pairwise_cons.mp h
    rw [insertDesc]
    split
    next hle =>
      refine List.pairwise_cons.mpr ⟨?_, h⟩
      intro b hb
      rcases List.mem_cons.mp hb with rfl | hb'
      · exact hle
      · exact le_trans (hy b hb') hle
    next hle =>
      refine List.pairwise_cons.mpr ⟨?_, ih hys⟩
      intro b hb
      rcases (mem_insertDesc r b ys).mp hb with rfl | hb'
      · exact le_of_not_le hle
      · exact hy b hb'

/-- The sort produces a newest-first list. -/
theorem newestFirst_sortDesc : ∀ xs, newestFirst (sortDesc xs)
  | [] => List.Pairwise.nil
  | x :: xs => newestFirst_insertDesc x (sortDesc xs) (newestFirst_sortDesc xs)

/-- The sort adds no record. -/
theorem mem_sortDesc (x : HistoryRecord) : ∀ xs, x ∈ sortDesc xs → x ∈ xs := by
  intro xs
  induction xs with
  | nil =>
    intro h
    exact h
  | cons y ys ih =>
    intro h
    simp only [sortDesc] at h
    rcases (mem_insertDesc y x (sortDesc ys)).mp h with rfl | h'
    · exact List.mem_cons_self x ys
    · exact List.mem_cons_of_mem y (ih h')

/-! ### Claim theorems -/

/-- Claim C1: for a non-empty upstream list of size N and an index draw
meeting the `random.sample` contract for sample size `min 5 N`, the
sampling step yields exactly `min 5 N` sampled records, all drawn from the
upstream list, pairwise distinct when the upstream records are; and a
completed enrichment loop turns them into exactly `min 5 N` result items,
each derived from a sampled upstream record. -/
theorem sampling_produces_min5_distinct (env : Env) (idx : List Nat)
    (l : List CountryJson) (h : validSample idx l.length (min 5 l.length)) :
    (sampleList idx l).length = min 5 l.length
    ∧ (∀ x ∈ sampleList idx l, x ∈ l)
    ∧ (l.Nodup → (sampleList idx l).Nodup)
    ∧ ∀ rs, buildItems env (sampleList idx l) = .ok rs →
        rs.length = min 5 l.length ∧ ∀ r ∈ rs, ∃ c ∈ l, buildItem env c = .ok r := by
  obtain ⟨hlen, hnodup, hlt⟩ := h
  have hslen : (sampleList idx l).length = min 5 l.length := by
    rw [sampleList_length_eq idx l hlt, hlen]
  refine ⟨hslen, sampleList_subset idx l,
    fun hl => sampleList_nodup idx l hnodup hlt hl, ?_⟩
  intro rs hrs
  refine ⟨by rw [buildItems_length env _ rs hrs, hslen], ?_⟩
  intro r hr
  obtain ⟨c, hc, hcb⟩ := buildItems_mem env _ rs hrs r hr
  exact ⟨c, sampleList_subset idx l c hc, hcb⟩

/-- Witness for C1: a two-element upstream list with the index draw
`[1, 0]` yields `min 5 2 = 2` sampled records. -/
theorem sampling_produces_min5_distinct_witness :
    (sampleList [1, 0] [cFrance, cNoCapital]).length
      = min 5 ([cFrance, cNoCapital] : List CountryJson).length :=
  (sampling_produces_min5_distinct envBase [1, 0] [cFrance, cNoCapital]
    (by decide)).1

/-- Claim C7: the history read returns at most 20 records, newest first by
search timestamp, only records of the store, and the empty sequence when
the store is unavailable. -/
theorem history_read_capped_sorted_safe :
    (∀ s, (history_view s).length ≤ 20)
    ∧ (∀ s, newestFirst (history_view s))
    ∧ history_view .unavailable = []
    ∧ ∀ rs r, r ∈ history_view (.available rs) → r ∈ rs := by
  refine ⟨?_, ?_, rfl, ?_⟩
  · intro s
    cases s with
    | unavailable => simp [history_view]
    | available rs =>
      simp only [history_view]
      rw [List.length_take]
      exact inf_le_left
  · intro s
    cases s with
    | unavailable => exact List.Pairwise.nil
    | available rs =>
      exact List.Pairwise.sublist (List.take_sublist 20 (sortDesc rs))
        (newestFirst_sortDesc rs)
  · intro rs r hr
    exact mem_sortDesc r rs ((List.take_sublist 20 (sortDesc rs)).subset hr)

/-- Witness for C7: reading a two-record store returns both records (here
checked through the membership clause at a concrete store). -/
theorem history_read_capped_sorted_safe_witness :
    recA ∈ [recB, recA] :=
  history_read_capped_sorted_safe.2.2.2 [recB, recA] recA (by decide)

/-- Claim C2: on a submitted, valid request, every country-lookup failure
(network error, timeout or non-2xx — all modelled by the caught
`RequestException`) renders the form page with the fixed error message
"Failed to fetch countries data." and persists nothing. -/
theorem fetch_failure_fixed_message (env : Env) (req : Request)
    (hp : req.isPost = true) (hv : req.formValid = true)
    (hf : env.fetchCountries = .error ()) :
    home env req = (.formPage (some ("Failed to fetch countries data.")), []) := by
  simp [home, hp, hv, hf]

/-- Witness for C2: the fetch-failure environment at the concrete valid
POST request. -/
theorem fetch_failure_fixed_message_witness :
    home envFetchFail reqPost
      = (.formPage (some ("Failed to fetch countries data.")), []) :=
  fetch_failure_fixed_message envFetchFail reqPost rfl rfl rfl

/-- Claim C3: on a submitted, valid request, a successful country lookup
returning the empty list renders the form page with the distinct message
"No countries found for this continent." and persists nothing. -/
theorem empty_list_distinct_message (env : Env) (req : Request)
    (hp : req.isPost = true) (hv : req.formValid = true)
    (hf : env.fetchCountries = .ok []) :
    home env req = (.formPage (some ("No countries found for this continent.")), []) := by
  simp [home, hp, hv, hf]

/-- Witness for C3: the empty-list environment at the concrete valid POST
request. -/
theorem empty_list_distinct_message_witness :
    home envEmpty reqPost
      = (.formPage (some ("No countries found for this continent.")), []) :=
  empty_list_distinct_message envEmpty reqPost rfl rfl rfl

/-- One iteration of the sampling loop depends on the environment only
through the credential and the weather service. -/
theorem buildItem_congr (e₁ e₂ : Env) (hk : e₁.apiKey = e₂.apiKey)
    (hw : e₁.weatherApi = e₂.weatherApi) (c : CountryJson) :
    buildItem e₁ c = buildItem e₂ c := by
  unfold buildItem fetchWeatherInfo keyConfigured
  rw [hk, hw]

/-- The whole sampling loop depends on the environment only through the
credential and the weather service. -/
theorem buildItems_congr (e₁ e₂ : Env) (hk : e₁.apiKey = e₂.apiKey)
    (hw : e₁.weatherApi = e₂.weatherApi) :
    ∀ cs, buildItems e₁ cs = buildItems e₂ cs
  | [] => rfl
  | c :: cs => by
    unfold buildItems
    rw [buildItem_congr e₁ e₂ hk hw c, buildItems_congr e₁ e₂ hk hw cs]

/-- The rendered page does not depend on the insert outcome. -/
theorem home_fst_insertOk (env : Env) (req : Request) (b : Bool) :
    (home { env with insertOk := b } req).1 = (home env req).1 := by
  by_cases hpv : (req.isPost && req.formValid) = true
  · rcases hf : env.fetchCountries with e | l
    · simp [home, hpv, hf]
    · rcases hl : l.isEmpty
      · simp only [home, hpv, hf, hl, if_true, Bool.false_eq_true, if_false,
          buildItems_congr
            ⟨Except.ok l, env.apiKey, env.weatherApi, env.sampleIdx, env.now, b⟩
            env rfl rfl]
        rcases hb : buildItems env (sampleList env.sampleIdx l) with e | rs <;>
          simp [hb]
      · simp [home, hpv, hf, hl]
  · simp [home, hpv]

/-- Claim C6: whether the history insert succeeds or fails has no effect
on the rendered outcome — the store failure is swallowed and the response
is identical to the one a successful insert would produce. -/
theorem insert_failure_invisible (env : Env) (req : Request) (b₁ b₂ : Bool) :
    (home { env with insertOk := b₁ } req).1
      = (home { env with insertOk := b₂ } req).1 :=
  (home_fst_insertOk env req b₁).trans (home_fst_insertOk env req b₂).symm

/-- Claim C4: weather enrichment is attempted only when the derived
capital is not the sentinel "N/A" and the credential is configured — on
any other item the weather field is absent and the weather service is
never consulted (the item is the same under every weather service); and
when the call for a capital fails with a transport error/timeout or any
non-200 status, that item is still built with every non-weather field
populated and weather absent, and the failure does not abort the loop nor
change any other item: prepending such an item to any completing loop
yields that item followed by the unchanged results. -/
theorem weather_guard_and_isolation (env : Env) (c : CountryJson) :
    ((capitalOf c = "N/A" ∨ keyConfigured env = false) →
      buildItem env c = .ok (plainItem c)
      ∧ ∀ w, buildItem { env with weatherApi := w } c = .ok (plainItem c))
    ∧ (keyConfigured env = true → capitalOf c ≠ "N/A" →
      (env.weatherApi (capitalOf c) = .transportError
        ∨ ∃ code body, env.weatherApi (capitalOf c) = .status code body
            ∧ code ≠ 200) →
      buildItem env c = .ok (plainItem c)
      ∧ ∀ cs rs, buildItems env cs = .ok rs →
          buildItems env (c :: cs) = .ok (plainItem c :: rs)) := by
  constructor
  · intro hg
    have hkw : ∀ w, keyConfigured { env with weatherApi := w } = keyConfigured env :=
      fun w => rfl
    have hguard : (capitalOf c != "N/A" && keyConfigured env) = false := by
      rcases hg with h | h <;> simp [h]
    exact ⟨by simp [buildItem, hguard],
      fun w => by simp [buildItem, hkw w, hguard]⟩
  · intro hkey hcap hfail
    have hcapb : (capitalOf c != "N/A") = true := bne_iff_ne.mpr hcap
    have hfw : fetchWeatherInfo env (capitalOf c) = .ok none := by
      rcases hfail with hw | ⟨code, body, hw, hcode⟩
      · simp [fetchWeatherInfo, hw]
      · simp [fetchWeatherInfo, hw, hcode]
    have hitem : buildItem env c = .ok (plainItem c) := by
      simp [buildItem, plainItem, hcapb, hkey, hfw]
    refine ⟨hitem, ?_⟩
    intro cs rs h
    simp [buildItems, hitem, h]

/-- Witness for C4: a country with no capital is never enriched, and a
country whose weather call fails still yields its plain item. -/
theorem weather_guard_and_isolation_witness :
    buildItem envBase cNoCapital = .ok (plainItem cNoCapital)
    ∧ buildItem envWFail cFrance = .ok (plainItem cFrance) :=
  ⟨((weather_guard_and_isolation envBase cNoCapital).1 (Or.inl (by decide))).1,
   ((weather_guard_and_isolation envWFail cFrance).2 (by decide) (by decide)
      (Or.inl rfl)).1⟩

/-- Claim C5: a history record is persisted only by a successful
submission — a POST with a valid form whose country fetch succeeded with
a non-empty list — never by a GET or invalid-form request; and whenever
the handler renders the results page with a working store, it persists
exactly one record holding the submitted continent, the capture instant
and exactly the rendered results in sampling order. -/
theorem history_written_iff_success (env : Env) (req : Request) :
    ((home env req).2 ≠ [] →
      req.isPost = true ∧ req.formValid = true
      ∧ ∃ l, env.fetchCountries = .ok l ∧ l ≠ [])
    ∧ ∀ cont rs, env.insertOk = true →
        (home env req).1 = .resultsPage cont rs →
        cont = req.continent
        ∧ (home env req).2 = [⟨req.continent, env.now, rs⟩] := by
  by_cases hpv : (req.isPost && req.formValid) = true
  · rcases hf : env.fetchCountries with e | l
    · have hh : home env req
          = (.formPage (some ("Failed to fetch countries data.")), []) := by
        simp [home, hpv, hf]
      simp [hh]
    · rcases hl : l.isEmpty
      · rcases hb : buildItems env (sampleList env.sampleIdx l) with e | rs₀
        · have hh : home env req = (.crash, []) := by
            simp [home, hpv, hf, hl, hb]
          simp [hh]
        · have hh : home env req
              = (.resultsPage req.continent rs₀,
                 if env.insertOk then [⟨req.continent, env.now, rs₀⟩] else []) := by
            simp [home, hpv, hf, hl, hb]
          obtain ⟨hp, hv⟩ : req.isPost = true ∧ req.formValid = true := by
            simpa [Bool.and_eq_true] using hpv
          constructor
          · intro _
            exact ⟨hp, hv, l, rfl, List.isEmpty_eq_false.mp hl⟩
          · intro cont rs hio heq
            rw [hh] at heq
            have heq2 : Outcome.resultsPage req.continent rs₀
                = Outcome.resultsPage cont rs := heq
            injection heq2 with hc hr
            subst hc
            subst hr
            refine ⟨rfl, ?_⟩
            rw [hh]
            simp [hio]
      · have hh : home env req
            = (.formPage (some ("No countries found for this continent.")), []) := by
          simp [home, hpv, hf, hl]
        simp [hh]
  · have hh : home env req = (.formPage none, []) := by
      simp [home, hpv]
    simp [hh]

/-- Witness for C5: the baseline successful submission writes exactly its
one record (here checked through the second clause at the concrete
environment, whose rendered result list is the two built items). -/
theorem history_written_iff_success_witness :
    (home envBase reqPost).2
      = [⟨"Europe", 100, [plainItem cNoCapital, plainItem cFrance]⟩] :=
  ((history_written_iff_success envBase reqPost).2 ("Europe")
    [plainItem cNoCapital, plainItem cFrance] rfl (by decide)).2

/-- Claim C8: per-record field derivation.  The capital is the head of a
present non-empty capital array, else the sentinel "N/A"; the coordinates
prefer a present capital-specific pair, fall back to the record's general
value, and are a plain absent value (no sentinel) when both are missing;
the name is the common-name field or the sentinel "Unknown"; the
population is the given value or the sentinel "N/A". -/
theorem result_field_derivation (c : CountryJson) :
    (∀ x xs, c.capital = some (x :: xs) → capitalOf c = x)
    ∧ ((c.capital = none ∨ c.capital = some []) → capitalOf c = "N/A")
    ∧ (∀ x y, (c.capitalInfo.getD ⟨none⟩).latlng = some [x, y] →
        latlngOf c = some [x, y])
    ∧ (((c.capitalInfo.getD ⟨none⟩).latlng = none
        ∨ (c.capitalInfo.getD ⟨none⟩).latlng = some []) →
        latlngOf c = c.latlng)
    ∧ ((c.capitalInfo.getD ⟨none⟩).latlng = none → c.latlng = none →
        latlngOf c = none)
    ∧ (∀ s, c.name = some ⟨some s⟩ → nameOf c = s)
    ∧ ((c.name = none ∨ c.name = some ⟨none⟩) → nameOf c = "Unknown")
    ∧ (∀ n, c.population = some n → popOf c = .value n)
    ∧ (c.population = none → popOf c = .na) := by
  refine ⟨?_, ?_, ?_, ?_, ?_, ?_, ?_, ?_, ?_⟩
  · intro x xs h
    simp [capitalOf, capitalList, h]
  · rintro (h | h) <;> simp [capitalOf, capitalList, h]
  · intro x y h
    simp [latlngOf, pyOrNums, h]
  · rintro (h | h) <;> simp [latlngOf, pyOrNums, h]
  · intro h1 h2
    simp [latlngOf, pyOrNums, h1, h2]
  · intro s h
    simp [nameOf, h]
  · rintro (h | h) <;> simp [nameOf, h]
  · intro n h
    simp [popOf, h]
  · intro h
    simp [popOf, h]

/-- Witness for C8: the derivations at the two concrete records. -/
theorem result_field_derivation_witness :
    capitalOf cFrance = "Paris"
    ∧ capitalOf cNoCapital = "N/A"
    ∧ latlngOf cFrance = some [48, 2]
    ∧ latlngOf cNoCapital = none
    ∧ nameOf cFrance = "France"
    ∧ popOf cNoCapital = .na :=
  ⟨(result_field_derivation cFrance).1 ("Paris") [] rfl,
   (result_field_derivation cNoCapital).2.1 (Or.inl rfl),
   (result_field_derivation cFrance).2.2.1 48 2 rfl,
   (result_field_derivation cNoCapital).2.2.2.2.1 rfl rfl,
   (result_field_derivation cFrance).2.2.2.2.2.1 ("France") rfl,
   (result_field_derivation cNoCapital).2.2.2.2.2.2.2.2 rfl⟩

/-- Claim C10 (amended): on HTTP 200, when the body's `weather` key is
absent or holds a non-empty array, the item's weather field is present as
an object whose temp and/or description are null exactly when the
corresponding body fields are missing; but when the `weather` key is
present holding an empty array the iteration raises, so no item — and in
particular no weather object — is produced. -/
theorem weather_object_null_fields (env : Env) (c : CountryJson)
    (body : WeatherJson) (hkey : keyConfigured env = true)
    (hcap : capitalOf c ≠ "N/A")
    (hw : env.weatherApi (capitalOf c) = .status 200 body) :
    (body.weather = none →
      buildItem env c
        = .ok { plainItem c with weather := some ⟨mainTemp body, none⟩ })
    ∧ (∀ w ws, body.weather = some (w :: ws) →
      buildItem env c
        = .ok { plainItem c with weather := some ⟨mainTemp body, w.description⟩ })
    ∧ (body.weather = some [] → buildItem env c = .error ()) := by
  have hcapb : (capitalOf c != "N/A") = true := bne_iff_ne.mpr hcap
  refine ⟨?_, ?_, ?_⟩
  · intro h
    simp [buildItem, hcapb, hkey, fetchWeatherInfo, hw, h]
  · intro w ws h
    simp [buildItem, hcapb, hkey, fetchWeatherInfo, hw, h]
  · intro h
    simp [buildItem, hcapb, hkey, fetchWeatherInfo, hw, h]

/-- Witness for C10 (amended): a 200 body with no `main` and no `weather`
key yields a present weather object with null temp and description. -/
theorem weather_object_null_fields_witness :
    buildItem envWBare cFrance
      = .ok { plainItem cFrance with weather := some ⟨none, none⟩ } :=
  (weather_object_null_fields envWBare cFrance ⟨none, none⟩ (by decide)
    (by decide) rfl).1 rfl

/-- Counterexample to C10 as stated: the 200 body `{"weather": []}` lacks
`main.temp`, yet the iteration raises an uncaught IndexError instead of
producing an item with a present weather object. -/
theorem weather_object_not_always_present :
    mainTemp ⟨none, some []⟩ = none
    ∧ envWEmptyList.weatherApi (capitalOf cFrance) = .status 200 ⟨none, some []⟩
    ∧ buildItem envWEmptyList cFrance = .error () :=
  ⟨rfl, rfl, rfl⟩

/-- Claim C9 (code bug): the handler is not exception-free.  With a
configured credential, a country with a capital, and a weather response
of HTTP 200 whose body is `{"weather": []}` (the key present but the
array empty), `w_json.get("weather", [{}])[0]` raises an uncaught
`IndexError`: the request crashes instead of returning a renderable
outcome, contradicting the spec's "nothing is fatal" contract and the
code's own "do not crash the app" comment. -/
theorem weather_empty_array_crashes :
    home envWEmptyList reqPost = (.crash, []) := by
  decide

end GeoApp
